import Mathlib

/-!
Verification development for the OpenSandbox sandbox lifecycle control plane
(server side).  The definitions below are shallow embeddings of the Python
source under `src/server/src`: pure functions become Lean functions, the
stateful expiration tracker becomes explicit state passing, timestamps are
modelled as integers (seconds, any fixed epoch), Python dicts become
association lists, and fallible code returns `Except`/`Option`.
-/

namespace OpenSandbox

/-- Association-list lookup, modelling Python `dict.get` / `dict[...]` for the
string-keyed dicts used by the services (which hold at most one value per
key). -/
def alookup {β : Type} : List (String × β) → String → Option β
  | [], _ => none
  | (k', v) :: rest, k => if k' = k then some v else alookup rest k

/-- Association-list insert/replace, modelling Python `d[k] = v`. -/
def aset {β : Type} : List (String × β) → String → β → List (String × β)
  | [], k, v => [(k, v)]
  | (k', v') :: rest, k, v =>
    if k' = k then (k, v) :: rest else (k', v') :: aset rest k v

/-- Association-list removal, modelling Python `d.pop(k, None)`. -/
def aremove {β : Type} : List (String × β) → String → List (String × β)
  | [], _ => []
  | (k', v') :: rest, k =>
    if k' = k then aremove rest k else (k', v') :: aremove rest k

/-! ## Identifier and label schema (`src/server/src/services/constants.py`) -/

def SANDBOX_ID_LABEL : String := "opensandbox.io/id"

def SANDBOX_EXPIRES_AT_LABEL : String := "opensandbox.io/expires-at"

def SANDBOX_EMBEDDING_PROXY_PORT_LABEL : String := "opensandbox.io/embedding-proxy-port"

def SANDBOX_HTTP_PORT_LABEL : String := "opensandbox.io/http-port"

/-- The reserved label-key namespace of the spec; the Kubernetes projection in
`kubernetes_service.py` filters on this literal prefix. -/
def RESERVED_LABEL_PREFIX : String := "opensandbox.io/"

/-- Python's `str.startswith` (a prefix test on the character sequence). -/
def str_starts_with (s pre : String) : Bool := pre.data.isPrefixOf s.data

/-- Error payload carried by the `HTTPException`s the services raise:
HTTP status code plus the canonical error code from `SandboxErrorCodes`. -/
structure SandboxError where
  statusCode : Nat
  code : String
deriving Repr, DecidableEq

/-! ## Metadata projection (claim C2)

`docker.py:454-458` (`_container_to_sandbox`) filters container labels back to
user metadata by excluding the two exact keys `opensandbox.io/id` and
`opensandbox.io/expires-at`; `kubernetes_service.py:679-682`
(`_build_sandbox_from_workload`) filters by excluding every key that starts
with `opensandbox.io/`.  (Both sources additionally coerce an empty result to
`None`; only the key/value content matters here.) -/

/-- Docker `_container_to_sandbox` label-to-metadata projection:
`{key: value for key, value in labels.items() if key not in
{SANDBOX_ID_LABEL, SANDBOX_EXPIRES_AT_LABEL}}`. -/
def docker_metadata_projection (labels : List (String × String)) :
    List (String × String) :=
  labels.filter fun kv =>
    !(kv.1 = SANDBOX_ID_LABEL || kv.1 = SANDBOX_EXPIRES_AT_LABEL)

/-- Kubernetes `_build_sandbox_from_workload` label-to-metadata projection:
`{k: v for k, v in labels.items() if not k.startswith("opensandbox.io/")}`. -/
def k8s_metadata_projection (labels : List (String × String)) :
    List (String × String) :=
  labels.filter fun kv => !(str_starts_with kv.1 RESERVED_LABEL_PREFIX)

/-! ## Docker environment list (claim C5, `docker.py:771-776`) -/

/-- The environment list built in `_provision_sandbox`:
entries with value `None` are skipped, every other entry contributes
`f"{key}={value}"` (so an empty-string value yields `"KEY="`). -/
def build_environment : List (String × Option String) → List String
  | [] => []
  | (_, none) :: rest => build_environment rest
  | (k, some v) :: rest => (k ++ "=" ++ v) :: build_environment rest

/-! ## Docker status projection (claim C6, `docker.py:416-452`) -/

/-- The fields of the Docker daemon state snapshot that
`_container_to_sandbox` reads: `State.Status` (string), the `Running`,
`Paused`, `Restarting` flags, and `State.ExitCode`. -/
structure ContainerStateSnapshot where
  statusStr : String
  running : Bool
  paused : Bool
  restarting : Bool
  exitCode : Int
deriving Repr, DecidableEq

/-- The `(state, reason, message)` triple the services put into
`SandboxStatus`. -/
structure ProviderStatus where
  state : String
  reason : String
  message : String
deriving Repr, DecidableEq

/-- Python's `str.lower()` on the ASCII status strings the Docker daemon
reports (character-wise lowercasing). -/
def py_lower (s : String) : String := String.mk (s.data.map Char.toLower)

/-- The state/reason/message projection of `_container_to_sandbox`
(`docker.py:416-452`).  The source lowercases the raw status string before
comparing it. -/
def container_status_projection (cs : ContainerStateSnapshot) : ProviderStatus :=
  let status_value := py_lower cs.statusStr
  if cs.running && !cs.paused then
    ⟨"Running", "CONTAINER_RUNNING", "Sandbox container is running."⟩
  else if cs.paused then
    ⟨"Paused", "CONTAINER_PAUSED", "Sandbox container is paused."⟩
  else if cs.restarting then
    ⟨"Running", "CONTAINER_RESTARTING", "Sandbox container is restarting."⟩
  else if status_value = "created" ∨ status_value = "starting" then
    ⟨"Pending", "CONTAINER_STARTING", "Sandbox container is starting."⟩
  else if status_value = "exited" ∨ status_value = "dead" then
    if cs.exitCode = 0 then
      ⟨"Terminated", "CONTAINER_EXITED", "Sandbox container exited successfully."⟩
    else
      ⟨"Failed", "CONTAINER_EXITED_ERROR",
        "Sandbox container exited with code " ++ toString cs.exitCode ++ "."⟩
  else
    ⟨"Unknown", "CONTAINER_STATE_UNKNOWN",
      "Sandbox container is in state " ++ status_value ++ "."⟩

/-! ## BatchSandbox provider status (claims C7 and C10,
`batchsandbox_provider.py:536-621`) -/

/-- Key of the pod-IP annotation on a BatchSandbox custom resource. -/
def ENDPOINTS_ANNOTATIONS_KEY : String := "sandbox.opensandbox.io/endpoints"

/-- The fields of a BatchSandbox workload dict that `get_status`,
`get_endpoint_info` and `update_expiration` read: the `status` counters
(`.get(_, 0)`), metadata labels and annotations, `creationTimestamp`, and
`spec.expireTime`. -/
structure BatchSandboxWorkload where
  statusReplicas : Int
  statusReady : Int
  statusAllocated : Int
  labels : List (String × String)
  annotations : List (String × String)
  creationTimestamp : Option String
  specExpireTime : Option String
deriving Repr, DecidableEq

/-- Python truthiness of the `endpoints_str` annotation value read by
`get_status`: present and non-empty. -/
def batchsandbox_endpoints_truthy (w : BatchSandboxWorkload) : Bool :=
  match alookup w.annotations ENDPOINTS_ANNOTATIONS_KEY with
  | none => false
  | some s => decide (s ≠ "")

/-- `BatchSandboxProvider.get_status` (`batchsandbox_provider.py:536-585`). -/
def batchsandbox_get_status (w : BatchSandboxWorkload) : ProviderStatus :=
  if w.statusReady = 1 ∧ batchsandbox_endpoints_truthy w then
    ⟨"Running", "READY_WITH_IP",
      "Pod is ready with IP assigned (" ++ toString w.statusReady ++ "/" ++
        toString w.statusReplicas ++ " ready)"⟩
  else if w.statusReady > 0 then
    ⟨"Pending", "POD_READY_NO_IP",
      "Pod is ready but waiting for IP assignment (" ++ toString w.statusReady ++
        "/" ++ toString w.statusReplicas ++ " ready)"⟩
  else if w.statusAllocated > 0 then
    ⟨"Pending", "POD_SCHEDULED",
      "Pod is scheduled but not ready (" ++ toString w.statusAllocated ++ "/" ++
        toString w.statusReplicas ++ " allocated, " ++ toString w.statusReady ++
        " ready)"⟩
  else
    ⟨"Pending", "BATCHSANDBOX_PENDING", "BatchSandbox is pending allocation"⟩

/-- One iteration of the `_wait_for_sandbox_ready` polling loop
(`kubernetes_service.py:184-196`) reduced to its decision on the provider
status: `state == "Failed"` aborts with `KUBERNETES::POD_FAILED`,
`state == "Running"` returns the workload, anything else polls again. -/
inductive WaitDecision where
  | abortPodFailed
  | ready
  | continuePolling
deriving Repr, DecidableEq

/-- The decision `_wait_for_sandbox_ready` takes on one polled status. -/
def wait_for_ready_decision (st : ProviderStatus) : WaitDecision :=
  if st.state = "Failed" then .abortPodFailed
  else if st.state = "Running" then .ready
  else .continuePolling

/-! ## JSON values and `json.loads` for the endpoints annotation (claim C7)

`get_endpoint_info` feeds the annotation through Python's `json.loads`.  The
model below covers the JSON fragment the annotation can carry (null, booleans,
integers, strings, arrays); floats, objects and `\\u` escapes are outside the
modelled fragment (the controller writes a JSON array of IP strings). -/

inductive Json where
  | null
  | boolVal (b : Bool)
  | intVal (n : Int)
  | strVal (s : String)
  | arrVal (xs : List Json)
deriving Repr

/-- Skip JSON whitespace. -/
def skip_ws : List Char → List Char
  | [] => []
  | c :: rest =>
    if c = ' ' ∨ c = '\t' ∨ c = '\n' ∨ c = '\r' then skip_ws rest
    else c :: rest

/-- Parse the remainder of a JSON string literal (after the opening quote),
returning its characters and the unconsumed input. -/
def parse_json_string_chars : List Char → Option (List Char × List Char)
  | [] => none
  | c :: rest =>
    if c = '"' then some ([], rest)
    else if c = '\\' then
      match rest with
      | [] => none
      | e :: rest2 =>
        match (if e = 'n' then some '\n'
               else if e = 't' then some '\t'
               else if e = 'r' then some '\r'
               else if e = '"' then some '"'
               else if e = '\\' then some '\\'
               else if e = '/' then some '/'
               else none) with
        | none => none
        | some d =>
          match parse_json_string_chars rest2 with
          | none => none
          | some (s, r) => some (d :: s, r)
    else
      match parse_json_string_chars rest with
      | none => none
      | some (s, r) => some (c :: s, r)

/-- Take a maximal run of decimal digits. -/
def take_digits : List Char → List Char × List Char
  | [] => ([], [])
  | c :: rest =>
    if c.isDigit then
      let p := take_digits rest
      (c :: p.1, p.2)
    else ([], c :: rest)

/-- Decimal digits to a natural number. -/
def digits_to_nat (ds : List Char) : Nat :=
  ds.foldl (fun acc c => acc * 10 + (c.toNat - 48)) 0

/-- Expect a literal character sequence. -/
def expect_chars : List Char → List Char → Option (List Char)
  | [], rest => some rest
  | _ :: _, [] => none
  | c :: cs, d :: rest => if c = d then expect_chars cs rest else none

mutual

/-- Recursive-descent JSON value parser (fuel-indexed; `json_loads` supplies
ample fuel, one unit per input character). -/
def parse_json_value : Nat → List Char → Option (Json × List Char)
  | 0, _ => none
  | fuel + 1, cs =>
    match skip_ws cs with
    | [] => none
    | c :: rest =>
      if c = 'n' then (expect_chars "ull".data rest).map fun r => (Json.null, r)
      else if c = 't' then
        (expect_chars "rue".data rest).map fun r => (Json.boolVal true, r)
      else if c = 'f' then
        (expect_chars "alse".data rest).map fun r => (Json.boolVal false, r)
      else if c = '"' then
        (parse_json_string_chars rest).map fun p => (Json.strVal (String.mk p.1), p.2)
      else if c = '[' then
        match skip_ws rest with
        | ']' :: rest2 => some (Json.arrVal [], rest2)
        | cs2 =>
          match parse_json_array_items fuel cs2 with
          | none => none
          | some (xs, r) => some (Json.arrVal xs, r)
      else if c = '-' then
        match take_digits rest with
        | ([], _) => none
        | (ds, r) => some (Json.intVal (-(digits_to_nat ds : Int)), r)
      else if c.isDigit then
        match take_digits (c :: rest) with
        | (ds, r) => some (Json.intVal (digits_to_nat ds), r)
      else none

/-- Comma-separated JSON array items up to the closing bracket. -/
def parse_json_array_items : Nat → List Char → Option (List Json × List Char)
  | 0, _ => none
  | fuel + 1, cs =>
    match parse_json_value fuel cs with
    | none => none
    | some (v, rest) =>
      match skip_ws rest with
      | ',' :: rest2 =>
        match parse_json_array_items fuel rest2 with
        | none => none
        | some (vs, r) => some (v :: vs, r)
      | ']' :: rest2 => some ([v], rest2)
      | _ => none

end

/-- Python `json.loads`, on the modelled fragment: parse one value and require
only trailing whitespace after it. -/
def json_loads (s : String) : Option Json :=
  match parse_json_value (s.data.length + 1) s.data with
  | none => none
  | some (v, rest) => if skip_ws rest = [] then some v else none

def single_quote_str : String := String.singleton '\''

mutual

/-- How a Python f-string renders the values of the modelled JSON fragment
(`f"{pod_ip}:{port}"` in `get_endpoint_info`). -/
def py_fstring : Json → String
  | .null => "None"
  | .boolVal b => if b then "True" else "False"
  | .intVal n => toString n
  | .strVal s => s
  | .arrVal xs => "[" ++ py_join_repr xs ++ "]"

/-- Comma-joined Python reprs of list elements. -/
def py_join_repr : List Json → String
  | [] => ""
  | x :: xs =>
    match xs with
    | [] => py_repr x
    | _ :: _ => py_repr x ++ ", " ++ py_join_repr xs

/-- Python `repr` of the modelled JSON fragment (strings single-quoted,
escapes not modelled). -/
def py_repr : Json → String
  | .null => "None"
  | .boolVal b => if b then "True" else "False"
  | .intVal n => toString n
  | .strVal s => single_quote_str ++ s ++ single_quote_str
  | .arrVal xs => "[" ++ py_join_repr xs ++ "]"

end

/-- `BatchSandboxProvider.get_endpoint_info`
(`batchsandbox_provider.py:587-621`): read the endpoints annotation, parse it
with `json.loads`, and build `f"{endpoints[0]}:{port}"` from the first array
element when the parsed value is truthy.  The non-array fall-through cases
mirror CPython: a missing or empty annotation string is falsy; a parse error
(`JSONDecodeError`) is caught and yields `None`; a parsed `null` or empty
array/string is falsy and falls through to `None`; `len()` on a number or
boolean raises `TypeError`, which is caught and yields `None`; a non-empty
top-level JSON string is indexable, so `endpoints[0]` is its first character. -/
def get_endpoint_info (w : BatchSandboxWorkload) (port : Nat) : Option String :=
  match alookup w.annotations ENDPOINTS_ANNOTATIONS_KEY with
  | none => none
  | some endpoints_str =>
    if endpoints_str = "" then none
    else
      match json_loads endpoints_str with
      | none => none
      | some (.arrVal []) => none
      | some (.arrVal (x :: _)) => some (py_fstring x ++ ":" ++ toString port)
      | some (.strVal s) =>
        match s.data with
        | [] => none
        | c :: _ => some (String.mk [c] ++ ":" ++ toString port)
      | some _ => none

/-- `KubernetesSandboxService.get_endpoint` (`kubernetes_service.py:606-634`)
after the workload lookup: a missing workload is 404
`KUBERNETES::SANDBOX_NOT_FOUND`; a falsy endpoint string from the provider is
404 `KUBERNETES::POD_IP_NOT_AVAILABLE`. -/
def k8s_get_endpoint_on_workload (workloadOpt : Option BatchSandboxWorkload)
    (port : Nat) : Except SandboxError String :=
  match workloadOpt with
  | none => .error ⟨404, "KUBERNETES::SANDBOX_NOT_FOUND"⟩
  | some w =>
    match get_endpoint_info w port with
    | none => .error ⟨404, "KUBERNETES::POD_IP_NOT_AVAILABLE"⟩
    | some e =>
      if e = "" then .error ⟨404, "KUBERNETES::POD_IP_NOT_AVAILABLE"⟩
      else .ok e


/-! ## List pagination (claim C9, `docker.py:929-993` and
`kubernetes_service.py:383-435`) -/

/-- The part of a Sandbox response record that list sorting reads:
`created_at`, modelled as an integer timestamp (the id tags records apart). -/
structure SandboxRecord where
  sid : String
  createdAt : Int
deriving Repr, DecidableEq

/-- The `PaginationInfo` response model (`schema.py:283-291`). -/
structure PaginationInfo where
  page : Nat
  pageSize : Nat
  totalItems : Nat
  totalPages : Nat
  hasNextPage : Bool
deriving Repr, DecidableEq

/-- The descending `created_at` ordering used by
`sort(key=lambda s: s.created_at, reverse=True)`. -/
def created_desc (a b : SandboxRecord) : Bool := decide (b.createdAt ≤ a.createdAt)

/-- The sort/slice/pagination tail of `DockerSandboxService.list_sandboxes`
(`docker.py:967-993`): the input is the already-filtered, deduplicated
collection; `total_pages = math.ceil(total_items / page_size) if total_items
else 0`; the page slice is `sandboxes[(page-1)*page_size :
(page-1)*page_size + page_size]`. -/
def docker_list_sandboxes (sandboxes : List SandboxRecord)
    (page pageSize : Nat) : List SandboxRecord × PaginationInfo :=
  let sorted := sandboxes.mergeSort created_desc
  let totalItems := sorted.length
  let totalPages := if totalItems = 0 then 0 else (totalItems + pageSize - 1) / pageSize
  let items := (sorted.drop ((page - 1) * pageSize)).take pageSize
  (items, ⟨page, pageSize, totalItems, totalPages, decide (page < totalPages)⟩)

/-- The sort/slice/pagination tail of `KubernetesSandboxService.list_sandboxes`
(`kubernetes_service.py:411-435`): identical except `total_pages =
(total_items + page_size - 1) // page_size` unconditionally. -/
def k8s_list_sandboxes (sandboxes : List SandboxRecord)
    (page pageSize : Nat) : List SandboxRecord × PaginationInfo :=
  let sorted := sandboxes.mergeSort created_desc
  let totalItems := sorted.length
  let totalPages := (totalItems + pageSize - 1) / pageSize
  let items := (sorted.drop ((page - 1) * pageSize)).take pageSize
  (items, ⟨page, pageSize, totalItems, totalPages, decide (page < totalPages)⟩)

/-! ## Expiration tracker (claims C3 and C4, `docker.py:233-254`) -/

/-- A `threading.Timer` created by `_schedule_expiration`: the sandbox id it
will expire, the absolute deadline it was armed for, and whether `cancel()`
has been called on it. -/
structure ExpirationTimer where
  sid : String
  deadline : Int
  cancelled : Bool
deriving Repr, DecidableEq

/-- The tracker state of `DockerSandboxService`: `_sandbox_expirations`
(id to tracked absolute deadline), `_expiration_timers` (id to the registered
timer), and the heap of every timer object created so far (heap indices stand
for object identity, so cancelled timers remain visible). -/
structure TrackerState where
  sandboxExpirations : List (String × Int)
  expirationTimers : List (String × Nat)
  timers : List ExpirationTimer
deriving Repr, DecidableEq

/-- Tracker state at service construction (`__init__`): empty dicts. -/
def initialTrackerState : TrackerState := ⟨[], [], []⟩

/-- `Timer.cancel()` on the heap slot `i`. -/
def cancel_timer (ts : List ExpirationTimer) (i : Nat) : List ExpirationTimer :=
  if h : i < ts.length then
    ts.set i { ts.get ⟨i, h⟩ with cancelled := true }
  else ts

/-- `_schedule_expiration` (`docker.py:233-246`): create a new timer for the
deadline, then under `_expiration_lock` pop and cancel any existing timer for
the id and register the new deadline and timer. -/
def schedule_expiration (st : TrackerState) (sid : String) (expiresAt : Int) :
    TrackerState :=
  let newIdx := st.timers.length
  let timers1 := st.timers ++ [⟨sid, expiresAt, false⟩]
  let timers2 :=
    match alookup st.expirationTimers sid with
    | some oldIdx => cancel_timer timers1 oldIdx
    | none => timers1
  { sandboxExpirations := aset st.sandboxExpirations sid expiresAt,
    expirationTimers := aset st.expirationTimers sid newIdx,
    timers := timers2 }

/-- `_remove_expiration_tracking` (`docker.py:248-254`): pop and cancel the
registered timer and drop the tracked deadline. -/
def remove_expiration_tracking (st : TrackerState) (sid : String) :
    TrackerState :=
  let timers :=
    match alookup st.expirationTimers sid with
    | some idx => cancel_timer st.timers idx
    | none => st.timers
  { sandboxExpirations := aremove st.sandboxExpirations sid,
    expirationTimers := aremove st.expirationTimers sid,
    timers := timers }

/-- The tracker mutations a service lifetime performs: `_schedule_expiration`
(from create, renew and restore) and `_remove_expiration_tracking` (from
delete and the expiry callback). -/
inductive TrackerOp where
  | schedule (sid : String) (expiresAt : Int)
  | remove (sid : String)
deriving Repr, DecidableEq

def apply_tracker_op (st : TrackerState) : TrackerOp → TrackerState
  | .schedule sid t => schedule_expiration st sid t
  | .remove sid => remove_expiration_tracking st sid

/-- Tracker state after a sequence of operations from service construction. -/
def run_tracker_ops (ops : List TrackerOp) : TrackerState :=
  ops.foldl apply_tracker_op initialTrackerState

/-- The timers that are armed (created, not cancelled) for a sandbox id. -/
def active_timers (st : TrackerState) (sid : String) : List ExpirationTimer :=
  st.timers.filter fun tm => decide (tm.sid = sid) && !tm.cancelled

/-- Tracker well-formedness: every registered timer index is a valid heap slot
holding a timer for that id, and every armed timer is the one registered for
its id. -/
def TrackerInv (st : TrackerState) : Prop :=
  (∀ sid idx, alookup st.expirationTimers sid = some idx →
    ∃ tm, st.timers[idx]? = some tm ∧ tm.sid = sid) ∧
  (∀ i tm, st.timers[i]? = some tm → tm.cancelled = false →
    alookup st.expirationTimers tm.sid = some i)

/-! ## Expiration renewal (claim C3, `docker.py:1118-1150` and
`kubernetes_service.py:520-584`) -/

/-- Modelled from the spec: `ensure_future_expiration` lives in
`src/services/validators.py`, which is absent from the provided sources (only
its callers and tests are present).  Per spec section 4.2 it coerces the
timestamp to UTC and rejects `t <= now`, and per the section 7 taxonomy the
invalid-expiration failure is the 400 error `DOCKER::INVALID_EXPIRATION`. -/
def ensure_future_expiration (t now : Int) : Except SandboxError Int :=
  if t ≤ now then Except.error ⟨400, "DOCKER::INVALID_EXPIRATION"⟩
  else Except.ok t

/-- `datetime.isoformat()` on the integer-modelled timestamps (any injective
rendering serves the embedding). -/
def iso_format (t : Int) : String := toString t

/-- The fields of a Docker container object that `renew_expiration` touches:
its labels (carrying the id and expires-at labels). -/
structure DockerContainer where
  labels : List (String × String)
deriving Repr, DecidableEq

/-- The service state `renew_expiration` can read or mutate: the daemon's
containers and the expiration tracker. -/
structure DockerServiceState where
  containers : List DockerContainer
  tracker : TrackerState
deriving Repr, DecidableEq

/-- `_get_container_by_sandbox_id` (`docker.py:208-231`): list containers with
label `opensandbox.io/id=<id>` and take the first, else a 404. -/
def get_container_by_sandbox_id (st : DockerServiceState) (sid : String) :
    Option DockerContainer :=
  st.containers.find? fun c => alookup c.labels SANDBOX_ID_LABEL == some sid

/-- Replace the labels of the first container carrying the sandbox id
(`_update_container_labels` on the container the lookup returned). -/
def update_first_container (containers : List DockerContainer) (sid : String)
    (newLabels : List (String × String)) : List DockerContainer :=
  match containers with
  | [] => []
  | c :: rest =>
    if alookup c.labels SANDBOX_ID_LABEL == some sid then
      { c with labels := newLabels } :: rest
    else c :: update_first_container rest sid newLabels

/-- `DockerSandboxService.renew_expiration` (`docker.py:1118-1150`): fetch the
container (404 if absent), validate the requested time, then replace the
timer via `_schedule_expiration` and patch the `expires-at` label.  Failures
before the mutation leave the state untouched (`HTTPException` propagates). -/
def docker_renew_expiration (st : DockerServiceState) (sid : String)
    (reqExpiresAt now : Int) : Except SandboxError Int × DockerServiceState :=
  match get_container_by_sandbox_id st sid with
  | none => (Except.error ⟨404, "DOCKER::SANDBOX_NOT_FOUND"⟩, st)
  | some c =>
    match ensure_future_expiration reqExpiresAt now with
    | Except.error e => (Except.error e, st)
    | Except.ok newExp =>
      let tracker := schedule_expiration st.tracker sid newExp
      let labels := aset c.labels SANDBOX_EXPIRES_AT_LABEL (iso_format newExp)
      (Except.ok newExp,
        { containers := update_first_container st.containers sid labels,
          tracker := tracker })

/-- The Kubernetes service state `renew_expiration` can read or mutate: the
BatchSandbox workloads in the namespace. -/
structure K8sServiceState where
  workloads : List BatchSandboxWorkload
deriving Repr, DecidableEq

/-- `BatchSandboxProvider.get_workload` (`batchsandbox_provider.py:419-444`):
first workload whose labels carry `opensandbox.io/id=<id>`. -/
def get_workload_by_sandbox_id (st : K8sServiceState) (sid : String) :
    Option BatchSandboxWorkload :=
  st.workloads.find? fun w => alookup w.labels SANDBOX_ID_LABEL == some sid

/-- `update_expiration` (`batchsandbox_provider.py:483-512`): patch
`spec.expireTime` on the workload found for the id. -/
def patch_workload_expire_time (workloads : List BatchSandboxWorkload)
    (sid : String) (v : String) : List BatchSandboxWorkload :=
  match workloads with
  | [] => []
  | w :: rest =>
    if alookup w.labels SANDBOX_ID_LABEL == some sid then
      { w with specExpireTime := some v } :: rest
    else w :: patch_workload_expire_time rest sid v

/-- `KubernetesSandboxService.renew_expiration`
(`kubernetes_service.py:520-584`): validate the requested time first, then
look up the workload (404 if absent) and patch `spec.expireTime`. -/
def k8s_renew_expiration (st : K8sServiceState) (sid : String)
    (reqExpiresAt now : Int) : Except SandboxError Int × K8sServiceState :=
  match ensure_future_expiration reqExpiresAt now with
  | Except.error e => (Except.error e, st)
  | Except.ok newExp =>
    match get_workload_by_sandbox_id st sid with
    | none => (Except.error ⟨404, "KUBERNETES::SANDBOX_NOT_FOUND"⟩, st)
    | some _ =>
      (Except.ok newExp,
        { workloads :=
            patch_workload_expire_time st.workloads sid (iso_format newExp) })

/-! ## Volume mounts (claim C8) -/

/-- The `VolumeMount` request model (`schema.py:33-76`): `hostPath`,
`containerPath`, `readOnly`. -/
structure VolumeMountSpec where
  hostPath : String
  containerPath : String
  readOnly : Bool
deriving Repr, DecidableEq

/-- One bind entry of the `binds` mapping passed to
`create_host_config(binds=...)`: resolved host path, container path, and mode
`"ro"`/`"rw"` (as asserted by `tests/test_docker_service.py:424-429`). -/
structure DockerBind where
  hostPath : String
  containerPath : String
  mode : String
deriving Repr, DecidableEq

/-- Modelled from the spec: `os.path.abspath` as the volume-mount handling
uses it — an absolute path is kept, a relative one (any leading `./` dropped)
is joined to the server working directory. -/
def py_abspath (cwd p : String) : String :=
  if str_starts_with p "/" then p
  else if str_starts_with p "./" then cwd ++ "/" ++ String.mk (p.data.drop 2)
  else cwd ++ "/" ++ p

/-- Modelled from the spec: the volume-mount resolution of the Docker
provider's `_provision_sandbox` is absent from the provided sources; only the
`VolumeMount` schema, the expectations in `tests/test_docker_service.py`
(binds mapping, mode `ro`/`rw`, relative-path resolution against the CWD, 400
with `INVALID_VOLUME_MOUNT` on a missing host path, checked before any
container is created) and spec section 8 describe it.  `hostExists` stands
for `os.path.exists`.  The provided `constants.py` lacks the
`INVALID_VOLUME_MOUNT` member, so the spec's bare code name is used. -/
def resolve_volume_mounts (cwd : String) (hostExists : String → Bool) :
    List VolumeMountSpec → Except SandboxError (List DockerBind)
  | [] => Except.ok []
  | m :: rest =>
    let resolved := py_abspath cwd m.hostPath
    if hostExists resolved then
      match resolve_volume_mounts cwd hostExists rest with
      | Except.error e => Except.error e
      | Except.ok binds =>
        Except.ok (⟨resolved, m.containerPath,
          if m.readOnly then "ro" else "rw"⟩ :: binds)
    else Except.error ⟨400, "INVALID_VOLUME_MOUNT"⟩

/-! ## Pool-mode task template and shell quoting (claim C1,
`batchsandbox_provider.py:244-285`)

`_build_task_template` wraps the entrypoint as
`/bin/sh -c "/opt/opensandbox/bin/bootstrap.sh <shlex-quoted args> &"`.
`shlex.quote` is modelled from CPython `Lib/shlex.py`:
its safe class is ASCII `\w` plus `@ % + = : , .` slash and hyphen, and
`quote(s)` returns two single quotes for the empty string, `s` unchanged when
no unsafe character occurs, and otherwise wraps `s` in single quotes with
every embedded single quote replaced by the five-character sequence
quote, double-quote, quote, double-quote, quote. -/

/-- The ASCII-safe character class of `shlex.quote`: ASCII `\w`
(alphanumerics plus underscore) and `@ % + = : , .` slash and hyphen. -/
def shlex_safe_char (c : Char) : Bool :=
  c.isAlphanum || c = '_' || c = '@' || c = '%' || c = '+' || c = '=' ||
    c = ':' || c = ',' || c = '.' || c = '/' || c = '-'

/-- `s.replace("'", ...)` of `shlex.quote` on the character list: each single
quote becomes close-quote, a double-quoted single quote, and re-open-quote. -/
def shlex_quote_body : List Char → List Char
  | [] => []
  | c :: rest =>
    if c = '\'' then
      '\'' :: '"' :: '\'' :: '"' :: '\'' :: shlex_quote_body rest
    else c :: shlex_quote_body rest

/-- CPython `shlex.quote` on the character list. -/
def shlex_quote_chars (s : List Char) : List Char :=
  if s = [] then ['\'', '\'']
  else if s.all shlex_safe_char then s
  else '\'' :: (shlex_quote_body s ++ ['\''])

/-- `shlex.quote` on strings. -/
def shlex_quote (s : String) : String := String.mk (shlex_quote_chars s.data)

/-- `" ".join(shlex.quote(arg) for arg in entrypoint)` on character lists. -/
def shlex_join_list : List (List Char) → List Char
  | [] => []
  | [a] => shlex_quote_chars a
  | a :: b :: rest => shlex_quote_chars a ++ ' ' :: shlex_join_list (b :: rest)

/-- The space-joined shell-quoted entrypoint (`escaped_entrypoint`). -/
def shlex_join (args : List String) : String :=
  String.mk (shlex_join_list (args.map String.data))

/-- The `taskTemplate.spec.process` content built in pool mode: the wrapped
command and the env rendered verbatim as name/value pairs. -/
structure TaskTemplate where
  command : List String
  env : List (String × String)
deriving Repr, DecidableEq

/-- `_build_task_template` (`batchsandbox_provider.py:244-285`). -/
def build_task_template (entrypoint : List String)
    (env : List (String × String)) : TaskTemplate :=
  { command := ["/bin/sh", "-c",
      "/opt/opensandbox/bin/bootstrap.sh " ++ shlex_join entrypoint ++ " &"],
    env := env }

/-- The backquote character (code 96). -/
def backquote_char : Char := Char.ofNat 96

/-- Modes of the POSIX field splitter: outside quotes, inside single quotes,
inside double quotes, and after a backslash (outside / inside double
quotes). -/
inductive ShellMode where
  | norm
  | single
  | dquote
  | escape
  | dquoteEscape
deriving Repr, DecidableEq

/-- POSIX shell field splitting of a simple command's argument text, i.e. how
`/bin/sh` recovers an argv from the quoted text `shlex.quote` produced:
unquoted whitespace separates fields; single quotes preserve everything up to
the closing quote; inside double quotes a backslash escapes only
`$`, backquote, `"`, `\` (and a newline continues the line); an unquoted
backslash escapes the next character.  Expansion characters (`$`, backquote)
and operators are carried as literals here: `shlex.quote` never leaves them
unquoted, so they only ever occur inside single quotes in the parsed text.
`cur` accumulates the current field and `started` records whether the current
field exists (so a bare pair of single quotes yields an empty field). -/
def shell_split_aux : List Char → ShellMode → List Char → Bool → List (List Char)
  | [], _, cur, started => if started then [cur] else []
  | c :: rest, ShellMode.norm, cur, started =>
    if c = ' ' ∨ c = '\t' ∨ c = '\n' then
      if started then cur :: shell_split_aux rest ShellMode.norm [] false
      else shell_split_aux rest ShellMode.norm [] false
    else if c = '\'' then shell_split_aux rest ShellMode.single cur true
    else if c = '"' then shell_split_aux rest ShellMode.dquote cur true
    else if c = '\\' then shell_split_aux rest ShellMode.escape cur started
    else shell_split_aux rest ShellMode.norm (cur ++ [c]) true
  | c :: rest, ShellMode.single, cur, started =>
    if c = '\'' then shell_split_aux rest ShellMode.norm cur started
    else shell_split_aux rest ShellMode.single (cur ++ [c]) started
  | c :: rest, ShellMode.dquote, cur, started =>
    if c = '"' then shell_split_aux rest ShellMode.norm cur started
    else if c = '\\' then shell_split_aux rest ShellMode.dquoteEscape cur started
    else shell_split_aux rest ShellMode.dquote (cur ++ [c]) started
  | c :: rest, ShellMode.escape, cur, started =>
    if c = '\n' then shell_split_aux rest ShellMode.norm cur started
    else shell_split_aux rest ShellMode.norm (cur ++ [c]) true
  | c :: rest, ShellMode.dquoteEscape, cur, started =>
    if c = '$' ∨ c = backquote_char ∨ c = '"' ∨ c = '\\' then
      shell_split_aux rest ShellMode.dquote (cur ++ [c]) started
    else if c = '\n' then shell_split_aux rest ShellMode.dquote cur started
    else shell_split_aux rest ShellMode.dquote (cur ++ ['\\', c]) started

/-- Shell field splitting on strings. -/
def shell_split (s : String) : List String :=
  (shell_split_aux s.data ShellMode.norm [] false).map String.mk

end OpenSandbox

namespace OpenSandbox

/-! # Theorems -/

/-- C5: for every create-request env mapping, the environment list passed to
the Docker daemon contains exactly one entry `"KEY=VALUE"` for each entry
whose value is non-null (in order), entries with null value are dropped, and
an empty-string value is preserved as `"KEY="`; in particular
`{FOO: "bar", EMPTY: "", NONE: null}` yields exactly `["FOO=bar", "EMPTY="]`. -/
theorem build_environment_drops_null_keeps_empty
    (env : List (String × Option String)) :
    build_environment env =
      (env.filter fun kv => kv.2.isSome).map
        (fun kv => kv.1 ++ "=" ++ kv.2.getD "") ∧
    build_environment [("FOO", some "bar"), ("EMPTY", some ""), ("NONE", none)] =
      ["FOO=bar", "EMPTY="] := by
  constructor
  · induction env with
    | nil => rfl
    | cons kv rest ih =>
      obtain ⟨k, v⟩ := kv
      cases v with
      | none => simpa [build_environment] using ih
      | some v => simpa [build_environment] using ih
  · rfl

/-- C6: the Docker status projection maps daemon state snapshots exactly as
the spec's priority-ordered case list: Running and not Paused yields Running;
Paused yields Paused; (otherwise) Restarting yields Running with reason
CONTAINER_RESTARTING; status created/starting yields Pending; exited/dead with
exit code 0 yields Terminated; exited/dead with nonzero exit code yields
Failed; every other snapshot yields Unknown. -/
theorem container_status_projection_cases (cs : ContainerStateSnapshot) :
    (cs.running = true → cs.paused = false →
      (container_status_projection cs).state = "Running") ∧
    (cs.paused = true →
      (container_status_projection cs).state = "Paused") ∧
    (cs.running = false → cs.paused = false → cs.restarting = true →
      (container_status_projection cs).state = "Running" ∧
      (container_status_projection cs).reason = "CONTAINER_RESTARTING") ∧
    (cs.running = false → cs.paused = false → cs.restarting = false →
      (py_lower cs.statusStr = "created" ∨ py_lower cs.statusStr = "starting") →
      (container_status_projection cs).state = "Pending") ∧
    (cs.running = false → cs.paused = false → cs.restarting = false →
      (py_lower cs.statusStr = "exited" ∨ py_lower cs.statusStr = "dead") →
      cs.exitCode = 0 →
      (container_status_projection cs).state = "Terminated") ∧
    (cs.running = false → cs.paused = false → cs.restarting = false →
      (py_lower cs.statusStr = "exited" ∨ py_lower cs.statusStr = "dead") →
      cs.exitCode ≠ 0 →
      (container_status_projection cs).state = "Failed") ∧
    (cs.running = false → cs.paused = false → cs.restarting = false →
      py_lower cs.statusStr ≠ "created" → py_lower cs.statusStr ≠ "starting" →
      py_lower cs.statusStr ≠ "exited" → py_lower cs.statusStr ≠ "dead" →
      (container_status_projection cs).state = "Unknown") := by
  refine ⟨?_, ?_, ?_, ?_, ?_, ?_, ?_⟩
  · intro h1 h2
    simp [container_status_projection, h1, h2]
  · intro h
    simp [container_status_projection, h]
  · intro h1 h2 h3
    simp [container_status_projection, h1, h2, h3]
  · intro h1 h2 h3 h4
    rcases h4 with h4 | h4 <;>
      simp [container_status_projection, h1, h2, h3, h4]
  · intro h1 h2 h3 h4 h5
    have hcs : py_lower cs.statusStr ≠ "created" ∧ py_lower cs.statusStr ≠ "starting" := by
      rcases h4 with h4 | h4 <;> rw [h4] <;> exact ⟨by decide, by decide⟩
    rcases h4 with h4 | h4 <;>
      simp [container_status_projection, h1, h2, h3, h4, h5, hcs.1, hcs.2]
  · intro h1 h2 h3 h4 h5
    have hcs : py_lower cs.statusStr ≠ "created" ∧ py_lower cs.statusStr ≠ "starting" := by
      rcases h4 with h4 | h4 <;> rw [h4] <;> exact ⟨by decide, by decide⟩
    rcases h4 with h4 | h4 <;>
      simp [container_status_projection, h1, h2, h3, h4, h5, hcs.1, hcs.2]
  · intro h1 h2 h3 h4 h5 h6 h7
    simp [container_status_projection, h1, h2, h3, h4, h5, h6, h7]

/-- C6 witness: a concrete exited snapshot with nonzero exit code projects to
Failed. -/
theorem container_status_projection_cases_witness :
    (container_status_projection ⟨"exited", false, false, false, 3⟩).state =
      "Failed" :=
  (container_status_projection_cases ⟨"exited", false, false, false, 3⟩).2.2.2.2.2.1
    rfl rfl rfl (Or.inl (by decide)) (by decide)

/-- C10: `BatchSandboxProvider.get_status` only ever reports state Running or
Pending (never Failed, Terminated or Unknown), so the Failed-state abort
branch of `_wait_for_sandbox_ready` (which would raise
`KUBERNETES::POD_FAILED`) is unreachable for this provider. -/
theorem batchsandbox_get_status_never_failed (w : BatchSandboxWorkload) :
    ((batchsandbox_get_status w).state = "Running" ∨
      (batchsandbox_get_status w).state = "Pending") ∧
    wait_for_ready_decision (batchsandbox_get_status w) ≠
      WaitDecision.abortPodFailed := by
  unfold batchsandbox_get_status
  split_ifs <;> simp [wait_for_ready_decision]


/-- C2 counterexample: the Docker projection keeps the bridge-mode port label
`opensandbox.io/embedding-proxy-port` even though its key starts with the
reserved prefix, contradicting the claim that every reserved-prefix key is
removed. -/
theorem docker_metadata_projection_keeps_port_label :
    docker_metadata_projection [(SANDBOX_EMBEDDING_PROXY_PORT_LABEL, "40001")] =
      [(SANDBOX_EMBEDDING_PROXY_PORT_LABEL, "40001")] ∧
    str_starts_with SANDBOX_EMBEDDING_PROXY_PORT_LABEL RESERVED_LABEL_PREFIX = true := by
  constructor
  · decide
  · decide

/-- C2 amended: the Kubernetes projection removes exactly the keys that start
with the reserved prefix `opensandbox.io/` and keeps every other key/value
pair; the Docker projection removes exactly the two keys `opensandbox.io/id`
and `opensandbox.io/expires-at` and keeps every other key/value pair
(including other reserved-prefix keys such as the bridge-mode port labels). -/
theorem metadata_projection_filtering (labels : List (String × String)) :
    (∀ kv ∈ k8s_metadata_projection labels,
      ¬ str_starts_with kv.1 RESERVED_LABEL_PREFIX) ∧
    (∀ kv ∈ labels, ¬ str_starts_with kv.1 RESERVED_LABEL_PREFIX →
      kv ∈ k8s_metadata_projection labels) ∧
    (∀ kv ∈ docker_metadata_projection labels,
      kv.1 ≠ SANDBOX_ID_LABEL ∧ kv.1 ≠ SANDBOX_EXPIRES_AT_LABEL) ∧
    (∀ kv ∈ labels, kv.1 ≠ SANDBOX_ID_LABEL → kv.1 ≠ SANDBOX_EXPIRES_AT_LABEL →
      kv ∈ docker_metadata_projection labels) := by
  refine ⟨?_, ?_, ?_, ?_⟩ <;> intro kv hkv <;>
    simp [k8s_metadata_projection, docker_metadata_projection,
      List.mem_filter] at hkv ⊢ <;> tauto

/-- C2 witness: a user label passes the Kubernetes projection while a
reserved label is dropped from the same input. -/
theorem metadata_projection_filtering_witness :
    ("team", "x") ∈ k8s_metadata_projection
      [(SANDBOX_ID_LABEL, "abc"), ("team", "x")] :=
  (metadata_projection_filtering [(SANDBOX_ID_LABEL, "abc"), ("team", "x")]).2.1
    ("team", "x") (by decide) (by decide)

/-- C7 counterexample: on the annotation `["", "10.0.0.1"]` the provider
builds the endpoint from the FIRST array element (the empty string), returning
`":8080"`, not the first non-empty IP `"10.0.0.1"` as the claim states. -/
theorem get_endpoint_info_counterexample :
    get_endpoint_info
        { statusReplicas := 1, statusReady := 1, statusAllocated := 1,
          labels := [],
          annotations := [(ENDPOINTS_ANNOTATIONS_KEY, "[\"\", \"10.0.0.1\"]")],
          creationTimestamp := none, specExpireTime := none } 8080 =
      some ":8080" ∧ (":8080" : String) ≠ "10.0.0.1:8080" := by
  exact ⟨rfl, by decide⟩

/-- C7 amended: `get_endpoint_info` builds `"<first element>:<port>"` from the
FIRST element of the parsed JSON array (even when that element is the empty
string); a missing annotation, a JSON parse failure, or an empty parsed array
yields `None`; and the Kubernetes service maps `None` to a 404 error with code
`KUBERNETES::POD_IP_NOT_AVAILABLE`. -/
theorem get_endpoint_info_first_element (w : BatchSandboxWorkload) (port : Nat)
    (s : String) :
    (∀ x xs, alookup w.annotations ENDPOINTS_ANNOTATIONS_KEY = some s →
      s ≠ "" → json_loads s = some (Json.arrVal (x :: xs)) →
      get_endpoint_info w port = some (py_fstring x ++ ":" ++ toString port)) ∧
    (alookup w.annotations ENDPOINTS_ANNOTATIONS_KEY = none →
      get_endpoint_info w port = none) ∧
    (alookup w.annotations ENDPOINTS_ANNOTATIONS_KEY = some s →
      json_loads s = none → get_endpoint_info w port = none) ∧
    (alookup w.annotations ENDPOINTS_ANNOTATIONS_KEY = some s →
      json_loads s = some (Json.arrVal []) → get_endpoint_info w port = none) ∧
    (get_endpoint_info w port = none →
      k8s_get_endpoint_on_workload (some w) port =
        Except.error ⟨404, "KUBERNETES::POD_IP_NOT_AVAILABLE"⟩) := by
  refine ⟨?_, ?_, ?_, ?_, ?_⟩
  · intro x xs hlk hne hjson
    simp [get_endpoint_info, hlk, hne, hjson]
  · intro hlk
    simp [get_endpoint_info, hlk]
  · intro hlk hjson
    by_cases hne : s = "" <;> simp [get_endpoint_info, hlk, hne, hjson]
  · intro hlk hjson
    by_cases hne : s = "" <;> simp [get_endpoint_info, hlk, hne, hjson]
  · intro hnone
    simp [k8s_get_endpoint_on_workload, hnone]

/-- C7 witness: a workload whose annotation is `["10.0.0.1"]` resolves port
8080 to `"10.0.0.1:8080"`. -/
theorem get_endpoint_info_first_element_witness :
    get_endpoint_info
        { statusReplicas := 1, statusReady := 1, statusAllocated := 1,
          labels := [],
          annotations := [(ENDPOINTS_ANNOTATIONS_KEY, "[\"10.0.0.1\"]")],
          creationTimestamp := none, specExpireTime := none } 8080 =
      some "10.0.0.1:8080" := by
  have h :=
    (get_endpoint_info_first_element
        { statusReplicas := 1, statusReady := 1, statusAllocated := 1,
          labels := [],
          annotations := [(ENDPOINTS_ANNOTATIONS_KEY, "[\"10.0.0.1\"]")],
          creationTimestamp := none, specExpireTime := none } 8080
        "[\"10.0.0.1\"]").1 (Json.strVal "10.0.0.1") [] rfl (by decide) rfl
  rw [h]
  rfl

/-- C9: both list endpoints sort the matching items by `created_at` in
descending order (strictly descending when the timestamps are pairwise
distinct), return the 1-indexed page slice of size `pageSize` of the sorted
list, report `totalPages` as the ceiling of `totalItems / pageSize`, and set
`hasNextPage` exactly when `page < totalPages`. -/
theorem list_sandboxes_pagination (sandboxes : List SandboxRecord)
    (page pageSize : Nat) (hs : 1 ≤ pageSize)
    (hdist : sandboxes.Pairwise fun a b => a.createdAt ≠ b.createdAt) :
    (sandboxes.mergeSort created_desc).Perm sandboxes ∧
    ((sandboxes.mergeSort created_desc).Pairwise fun a b =>
      b.createdAt < a.createdAt) ∧
    (docker_list_sandboxes sandboxes page pageSize).1 =
      ((sandboxes.mergeSort created_desc).drop ((page - 1) * pageSize)).take
        pageSize ∧
    (k8s_list_sandboxes sandboxes page pageSize).1 =
      ((sandboxes.mergeSort created_desc).drop ((page - 1) * pageSize)).take
        pageSize ∧
    (docker_list_sandboxes sandboxes page pageSize).2.totalItems =
      sandboxes.length ∧
    (docker_list_sandboxes sandboxes page pageSize).2.totalPages =
      sandboxes.length ⌈/⌉ pageSize ∧
    (k8s_list_sandboxes sandboxes page pageSize).2.totalPages =
      sandboxes.length ⌈/⌉ pageSize ∧
    ((docker_list_sandboxes sandboxes page pageSize).2.hasNextPage = true ↔
      page < sandboxes.length ⌈/⌉ pageSize) ∧
    ((k8s_list_sandboxes sandboxes page pageSize).2.hasNextPage = true ↔
      page < sandboxes.length ⌈/⌉ pageSize) := by
  have hperm : (sandboxes.mergeSort created_desc).Perm sandboxes :=
    List.mergeSort_perm sandboxes created_desc
  have hlen : (sandboxes.mergeSort created_desc).length = sandboxes.length :=
    hperm.length_eq
  have hceil :
      (if sandboxes.length = 0 then 0
        else (sandboxes.length + pageSize - 1) / pageSize) =
      sandboxes.length ⌈/⌉ pageSize := by
    rw [Nat.ceilDiv_eq_add_pred_div]
    rcases Nat.eq_zero_or_pos sandboxes.length with h0 | h0
    · rw [h0, if_pos rfl, Nat.zero_add]
      exact (Nat.div_eq_of_lt (by omega)).symm
    · rw [if_neg (by omega)]
  have hsorted :
      (sandboxes.mergeSort created_desc).Pairwise fun a b =>
        b.createdAt < a.createdAt := by
    have h1 : (sandboxes.mergeSort created_desc).Pairwise fun a b =>
        created_desc a b = true :=
      List.sorted_mergeSort
        (fun a b c hab hbc => by
          simp only [created_desc, decide_eq_true_eq] at *
          exact le_trans hbc hab)
        (fun a b => by
          simp only [created_desc]
          rcases Int.le_total b.createdAt a.createdAt with h | h <;> simp [h])
        sandboxes
    have h2 : (sandboxes.mergeSort created_desc).Pairwise fun a b =>
        a.createdAt ≠ b.createdAt :=
      ((List.Perm.pairwise_iff (by intro a b h; exact h.symm) hperm).mpr hdist)
    exact (h1.and h2).imp fun {a b} hab => by
      have h3 := hab.1
      simp only [created_desc, decide_eq_true_eq] at h3
      exact lt_of_le_of_ne h3 (Ne.symm hab.2)
  refine ⟨hperm, hsorted, rfl, rfl, by simp [docker_list_sandboxes, hlen],
    ?_, ?_, ?_, ?_⟩
  · simp only [docker_list_sandboxes, hlen]
    exact hceil
  · simp only [k8s_list_sandboxes, hlen, Nat.ceilDiv_eq_add_pred_div]
  · simp only [docker_list_sandboxes, hlen, decide_eq_true_eq, hceil]
  · simp only [k8s_list_sandboxes, hlen, decide_eq_true_eq,
      Nat.ceilDiv_eq_add_pred_div]

/-- C9 witness: three sandboxes with distinct timestamps and page size 2 give
two total pages, and page 1 has a next page. -/
theorem list_sandboxes_pagination_witness :
    (docker_list_sandboxes [⟨"a", 1⟩, ⟨"b", 3⟩, ⟨"c", 2⟩] 1 2).2.totalPages =
        2 ∧
    (docker_list_sandboxes [⟨"a", 1⟩, ⟨"b", 3⟩, ⟨"c", 2⟩] 1 2).2.hasNextPage =
        true := by
  have h := list_sandboxes_pagination [⟨"a", 1⟩, ⟨"b", 3⟩, ⟨"c", 2⟩] 1 2
    (by decide) (by decide)
  exact ⟨h.2.2.2.2.2.1.trans (by decide), h.2.2.2.2.2.2.2.1.mpr (by decide)⟩

/-- C3: for an existing sandbox and a renewal whose requested expiration is
not in the future, both renew implementations fail with the 400
`DOCKER::INVALID_EXPIRATION` error and return the service state unchanged: no
timer is replaced, no tracked deadline changes, and no label or
`spec.expireTime` field is patched. -/
theorem renew_expiration_past_time_rejected
    (dst : DockerServiceState) (kst : K8sServiceState) (sid : String)
    (reqExpiresAt now : Int)
    (hc : (get_container_by_sandbox_id dst sid).isSome = true)
    (hle : reqExpiresAt ≤ now) :
    docker_renew_expiration dst sid reqExpiresAt now =
      (Except.error ⟨400, "DOCKER::INVALID_EXPIRATION"⟩, dst) ∧
    k8s_renew_expiration kst sid reqExpiresAt now =
      (Except.error ⟨400, "DOCKER::INVALID_EXPIRATION"⟩, kst) := by
  obtain ⟨c, hcv⟩ := Option.isSome_iff_exists.mp hc
  constructor
  · simp [docker_renew_expiration, hcv, ensure_future_expiration, hle]
  · simp [k8s_renew_expiration, ensure_future_expiration, hle]

/-- C3 witness: a service with one container/workload labelled "a" rejects a
renewal to time 5 at now = 10 without touching the state. -/
theorem renew_expiration_past_time_rejected_witness :
    docker_renew_expiration
        ⟨[⟨[(SANDBOX_ID_LABEL, "a")]⟩], initialTrackerState⟩ "a" 5 10 =
      (Except.error ⟨400, "DOCKER::INVALID_EXPIRATION"⟩,
        ⟨[⟨[(SANDBOX_ID_LABEL, "a")]⟩], initialTrackerState⟩) ∧
    k8s_renew_expiration
        ⟨[⟨0, 0, 0, [(SANDBOX_ID_LABEL, "a")], [], none, none⟩]⟩ "a" 5 10 =
      (Except.error ⟨400, "DOCKER::INVALID_EXPIRATION"⟩,
        ⟨[⟨0, 0, 0, [(SANDBOX_ID_LABEL, "a")], [], none, none⟩]⟩) :=
  renew_expiration_past_time_rejected
    ⟨[⟨[(SANDBOX_ID_LABEL, "a")]⟩], initialTrackerState⟩
    ⟨[⟨0, 0, 0, [(SANDBOX_ID_LABEL, "a")], [], none, none⟩]⟩ "a" 5 10
    (by decide) (by decide)

theorem alookup_aset_self {β : Type} (l : List (String × β)) (k : String)
    (v : β) : alookup (aset l k v) k = some v := by
  induction l with
  | nil => simp [aset, alookup]
  | cons kv rest ih =>
    obtain ⟨k', v'⟩ := kv
    by_cases h : k' = k
    · simp [aset, h, alookup]
    · simp [aset, h, alookup, ih]

theorem alookup_aset_ne {β : Type} (l : List (String × β)) (k k' : String)
    (v : β) (hne : k' ≠ k) : alookup (aset l k v) k' = alookup l k' := by
  induction l with
  | nil => simp [aset, alookup, Ne.symm hne]
  | cons kv rest ih =>
    obtain ⟨k2, v2⟩ := kv
    by_cases h : k2 = k
    · subst h
      simp [aset, alookup, Ne.symm hne]
    · by_cases h2 : k2 = k'
      · simp [aset, h, alookup, h2, hne]
      · simp [aset, h, alookup, h2, ih]

theorem alookup_aremove_self {β : Type} (l : List (String × β)) (k : String) :
    alookup (aremove l k) k = none := by
  induction l with
  | nil => simp [aremove, alookup]
  | cons kv rest ih =>
    obtain ⟨k', v'⟩ := kv
    by_cases h : k' = k
    · simp [aremove, h, ih]
    · simp [aremove, h, alookup, ih]

theorem alookup_aremove_ne {β : Type} (l : List (String × β)) (k k' : String)
    (hne : k' ≠ k) : alookup (aremove l k) k' = alookup l k' := by
  induction l with
  | nil => simp [aremove]
  | cons kv rest ih =>
    obtain ⟨k2, v2⟩ := kv
    by_cases h : k2 = k
    · subst h
      simp [aremove, alookup, Ne.symm hne, ih]
    · by_cases h2 : k2 = k'
      · simp [aremove, h, alookup, h2, hne]
      · simp [aremove, h, alookup, h2, ih]

theorem length_cancel_timer (ts : List ExpirationTimer) (i : Nat) :
    (cancel_timer ts i).length = ts.length := by
  unfold cancel_timer
  split <;> simp

theorem cancel_timer_get_self (ts : List ExpirationTimer) (i : Nat)
    (h : i < ts.length) :
    (cancel_timer ts i).get ⟨i, by rw [length_cancel_timer]; exact h⟩ =
      { ts.get ⟨i, h⟩ with cancelled := true } := by
  simp [cancel_timer, h]

theorem cancel_timer_get_ne (ts : List ExpirationTimer) (i j : Nat)
    (hj : j < ts.length) (hne : j ≠ i) :
    (cancel_timer ts i).get ⟨j, by rw [length_cancel_timer]; exact hj⟩ =
      ts.get ⟨j, hj⟩ := by
  rcases Nat.lt_or_ge i ts.length with hlt | hge
  · simp [cancel_timer, hlt, List.get_eq_getElem,
      List.getElem_set_ne (Ne.symm hne)]
  · simp [cancel_timer, Nat.not_lt.mpr hge]

theorem cancel_timer_getElem_q_self (ts : List ExpirationTimer) (i : Nat)
    (tm : ExpirationTimer) (h : ts[i]? = some tm) :
    (cancel_timer ts i)[i]? = some { tm with cancelled := true } := by
  obtain ⟨hlt, hget⟩ := List.getElem?_eq_some_iff.mp h
  have hgv : ts.get ⟨i, hlt⟩ = tm := by rw [List.get_eq_getElem]; exact hget
  unfold cancel_timer
  rw [dif_pos hlt, hgv, List.getElem?_set_self hlt]

theorem cancel_timer_getElem_q_ne (ts : List ExpirationTimer) (i j : Nat)
    (hne : j ≠ i) : (cancel_timer ts i)[j]? = ts[j]? := by
  unfold cancel_timer
  split
  · exact List.getElem?_set_ne (Ne.symm hne)
  · rfl

theorem schedule_expiration_eq_some (st : TrackerState) (sid : String)
    (t : Int) (oldIdx : Nat)
    (hlk : alookup st.expirationTimers sid = some oldIdx) :
    schedule_expiration st sid t =
      { sandboxExpirations := aset st.sandboxExpirations sid t,
        expirationTimers := aset st.expirationTimers sid st.timers.length,
        timers := cancel_timer (st.timers ++ [⟨sid, t, false⟩]) oldIdx } := by
  simp [schedule_expiration, hlk]

theorem schedule_expiration_eq_none (st : TrackerState) (sid : String)
    (t : Int) (hlk : alookup st.expirationTimers sid = none) :
    schedule_expiration st sid t =
      { sandboxExpirations := aset st.sandboxExpirations sid t,
        expirationTimers := aset st.expirationTimers sid st.timers.length,
        timers := st.timers ++ [⟨sid, t, false⟩] } := by
  simp [schedule_expiration, hlk]

theorem remove_expiration_tracking_eq_some (st : TrackerState) (sid : String)
    (idx : Nat) (hlk : alookup st.expirationTimers sid = some idx) :
    remove_expiration_tracking st sid =
      { sandboxExpirations := aremove st.sandboxExpirations sid,
        expirationTimers := aremove st.expirationTimers sid,
        timers := cancel_timer st.timers idx } := by
  simp [remove_expiration_tracking, hlk]

theorem remove_expiration_tracking_eq_none (st : TrackerState) (sid : String)
    (hlk : alookup st.expirationTimers sid = none) :
    remove_expiration_tracking st sid =
      { sandboxExpirations := aremove st.sandboxExpirations sid,
        expirationTimers := aremove st.expirationTimers sid,
        timers := st.timers } := by
  simp [remove_expiration_tracking, hlk]

theorem tracker_inv_initial : TrackerInv initialTrackerState := by
  constructor
  · intro sid idx h
    simp [initialTrackerState, alookup] at h
  · intro i tm h
    simp [initialTrackerState] at h

theorem tracker_inv_schedule (st : TrackerState) (sid : String) (t : Int)
    (hInv : TrackerInv st) : TrackerInv (schedule_expiration st sid t) := by
  obtain ⟨hreg, hact⟩ := hInv
  cases hlk : alookup st.expirationTimers sid with
  | some oldIdx =>
    obtain ⟨oldTm, holdget, holdsid⟩ := hreg sid oldIdx hlk
    have holdlt : oldIdx < st.timers.length :=
      (List.getElem?_eq_some_iff.mp holdget).1
    rw [schedule_expiration_eq_some st sid t oldIdx hlk]
    have hc : (cancel_timer (st.timers ++ [⟨sid, t, false⟩]) oldIdx)[oldIdx]?
        = some { oldTm with cancelled := true } :=
      cancel_timer_getElem_q_self _ _ _
        (by rw [List.getElem?_append_left holdlt]; exact holdget)
    constructor
    · intro sid2 idx h2
      by_cases hs : sid2 = sid
      · obtain rfl := hs.symm
        rw [alookup_aset_self] at h2
        obtain rfl := Option.some.inj h2
        refine ⟨⟨sid, t, false⟩, ?_, rfl⟩
        rw [cancel_timer_getElem_q_ne _ _ _ (by omega)]
        exact List.getElem?_concat_length _ _
      · rw [alookup_aset_ne _ _ _ _ hs] at h2
        obtain ⟨tm, hget, hsid⟩ := hreg sid2 idx h2
        have hlt : idx < st.timers.length :=
          (List.getElem?_eq_some_iff.mp hget).1
        by_cases hio : idx = oldIdx
        · refine ⟨{ tm with cancelled := true }, ?_, hsid⟩
          rw [hio] at hget hlt
          rw [hio]
          exact cancel_timer_getElem_q_self _ _ _
            (by rw [List.getElem?_append_left hlt]; exact hget)
        · refine ⟨tm, ?_, hsid⟩
          rw [cancel_timer_getElem_q_ne _ _ _ hio,
            List.getElem?_append_left hlt]
          exact hget
    · intro i tm hget hcanc
      by_cases hio : i = oldIdx
      · rw [hio, hc] at hget
        obtain rfl := Option.some.inj hget
        simp at hcanc
      · rw [cancel_timer_getElem_q_ne _ _ _ hio] at hget
        by_cases hlen : i = st.timers.length
        · subst hlen
          rw [List.getElem?_concat_length] at hget
          obtain rfl := Option.some.inj hget
          exact alookup_aset_self _ _ _
        · have hlt : i <
              (st.timers ++ ([⟨sid, t, false⟩] : List ExpirationTimer)).length :=
            (List.getElem?_eq_some_iff.mp hget).1
          have hlt2 : i < st.timers.length := by
            simp only [List.length_append, List.length_singleton] at hlt
            omega
          rw [List.getElem?_append_left hlt2] at hget
          have hres := hact i tm hget hcanc
          by_cases hsid : tm.sid = sid
          · rw [hsid] at hres
            exact absurd (Option.some.inj (hres.symm.trans hlk)) hio
          · rw [alookup_aset_ne _ _ _ _ hsid]
            exact hres
  | none =>
    rw [schedule_expiration_eq_none st sid t hlk]
    constructor
    · intro sid2 idx h2
      by_cases hs : sid2 = sid
      · obtain rfl := hs.symm
        rw [alookup_aset_self] at h2
        obtain rfl := Option.some.inj h2
        exact ⟨⟨sid, t, false⟩, List.getElem?_concat_length _ _, rfl⟩
      · rw [alookup_aset_ne _ _ _ _ hs] at h2
        obtain ⟨tm, hget, hsid⟩ := hreg sid2 idx h2
        have hlt : idx < st.timers.length :=
          (List.getElem?_eq_some_iff.mp hget).1
        refine ⟨tm, ?_, hsid⟩
        rw [List.getElem?_append_left hlt]
        exact hget
    · intro i tm hget hcanc
      by_cases hlen : i = st.timers.length
      · subst hlen
        rw [List.getElem?_concat_length] at hget
        obtain rfl := Option.some.inj hget
        exact alookup_aset_self _ _ _
      · have hlt : i <
            (st.timers ++ ([⟨sid, t, false⟩] : List ExpirationTimer)).length :=
          (List.getElem?_eq_some_iff.mp hget).1
        have hlt2 : i < st.timers.length := by
          simp only [List.length_append, List.length_singleton] at hlt
          omega
        rw [List.getElem?_append_left hlt2] at hget
        have hres := hact i tm hget hcanc
        by_cases hsid : tm.sid = sid
        · rw [hsid] at hres
          exact absurd (hres.symm.trans hlk) (by simp)
        · rw [alookup_aset_ne _ _ _ _ hsid]
          exact hres

theorem tracker_inv_remove (st : TrackerState) (sid : String)
    (hInv : TrackerInv st) : TrackerInv (remove_expiration_tracking st sid) := by
  obtain ⟨hreg, hact⟩ := hInv
  cases hlk : alookup st.expirationTimers sid with
  | some idx0 =>
    obtain ⟨oldTm, holdget, holdsid⟩ := hreg sid idx0 hlk
    rw [remove_expiration_tracking_eq_some st sid idx0 hlk]
    have hc : (cancel_timer st.timers idx0)[idx0]?
        = some { oldTm with cancelled := true } :=
      cancel_timer_getElem_q_self _ _ _ holdget
    constructor
    · intro sid2 idx h2
      by_cases hs : sid2 = sid
      · obtain rfl := hs.symm
        rw [alookup_aremove_self] at h2
        cases h2
      · rw [alookup_aremove_ne _ _ _ hs] at h2
        obtain ⟨tm, hget, hsid⟩ := hreg sid2 idx h2
        by_cases hio : idx = idx0
        · refine ⟨{ tm with cancelled := true }, ?_, hsid⟩
          rw [hio]
          refine cancel_timer_getElem_q_self _ _ _ ?_
          rw [hio] at hget
          exact hget
        · refine ⟨tm, ?_, hsid⟩
          rw [cancel_timer_getElem_q_ne _ _ _ hio]
          exact hget
    · intro i tm hget hcanc
      by_cases hio : i = idx0
      · rw [hio, hc] at hget
        obtain rfl := Option.some.inj hget
        simp at hcanc
      · rw [cancel_timer_getElem_q_ne _ _ _ hio] at hget
        have hres := hact i tm hget hcanc
        by_cases hsid : tm.sid = sid
        · rw [hsid] at hres
          exact absurd (Option.some.inj (hres.symm.trans hlk)) hio
        · rw [alookup_aremove_ne _ _ _ hsid]
          exact hres
  | none =>
    rw [remove_expiration_tracking_eq_none st sid hlk]
    constructor
    · intro sid2 idx h2
      by_cases hs : sid2 = sid
      · obtain rfl := hs.symm
        rw [alookup_aremove_self] at h2
        cases h2
      · rw [alookup_aremove_ne _ _ _ hs] at h2
        exact hreg sid2 idx h2
    · intro i tm hget hcanc
      have hres := hact i tm hget hcanc
      by_cases hsid : tm.sid = sid
      · rw [hsid] at hres
        exact absurd (hres.symm.trans hlk) (by simp)
      · rw [alookup_aremove_ne _ _ _ hsid]
        exact hres

theorem tracker_inv_apply (st : TrackerState) (op : TrackerOp)
    (hInv : TrackerInv st) : TrackerInv (apply_tracker_op st op) := by
  cases op with
  | schedule sid t => exact tracker_inv_schedule st sid t hInv
  | remove sid => exact tracker_inv_remove st sid hInv

theorem tracker_inv_foldl (ops : List TrackerOp) :
    ∀ st : TrackerState, TrackerInv st →
      TrackerInv (ops.foldl apply_tracker_op st) := by
  induction ops with
  | nil => intro st h; exact h
  | cons op rest ih =>
    intro st h
    exact ih (apply_tracker_op st op) (tracker_inv_apply st op h)

theorem tracker_inv_run (ops : List TrackerOp) :
    TrackerInv (run_tracker_ops ops) :=
  tracker_inv_foldl ops initialTrackerState tracker_inv_initial

theorem length_filter_le_one {α : Type} (p : α → Bool) :
    ∀ l : List α,
      (∀ (i j : Nat) (tm tm2 : α), l[i]? = some tm → l[j]? = some tm2 →
        p tm = true → p tm2 = true → i = j) →
      (l.filter p).length ≤ 1 := by
  intro l
  induction l with
  | nil => intro _; simp
  | cons x xs ih =>
    intro h
    by_cases hx : p x = true
    · rw [List.filter_cons_of_pos hx]
      have hempty : xs.filter p = [] := by
        rw [List.filter_eq_nil_iff]
        intro a ha hpa
        obtain ⟨k, hk⟩ := List.mem_iff_getElem?.mp ha
        have := h 0 (k + 1) x a (by simp) (by simpa using hk) hx
          (by simpa using hpa)
        omega
      rw [hempty]
      simp
    · rw [List.filter_cons_of_neg (by simpa using hx)]
      refine ih ?_
      intro i j tm tm2 hi hj hp hp2
      have := h (i + 1) (j + 1) tm tm2 (by simpa using hi) (by simpa using hj)
        hp hp2
      omega

theorem cancel_timer_append_left (l : List ExpirationTimer)
    (x : ExpirationTimer) (i : Nat) (h : i < l.length) :
    cancel_timer (l ++ [x]) i = cancel_timer l i ++ [x] := by
  have h1 : i < (l ++ [x]).length := by
    simp only [List.length_append, List.length_singleton]
    omega
  unfold cancel_timer
  rw [dif_pos h1, dif_pos h]
  have hgeq : (l ++ [x]).get ⟨i, h1⟩ = l.get ⟨i, h⟩ := by
    simp [List.get_eq_getElem, List.getElem_append_left h]
  rw [hgeq, List.set_append_left _ _ h]

theorem active_timers_schedule_eq (st : TrackerState) (sid : String) (t : Int)
    (hInv : TrackerInv st) :
    active_timers (schedule_expiration st sid t) sid = [⟨sid, t, false⟩] := by
  obtain ⟨hreg, hact⟩ := hInv
  have hfilter_nil : ∀ ts : List ExpirationTimer,
      (∀ (k : Nat) (tm : ExpirationTimer), ts[k]? = some tm → tm.sid = sid →
        tm.cancelled = true) →
      (ts.filter fun tm => decide (tm.sid = sid) && !tm.cancelled) = [] := by
    intro ts hts
    rw [List.filter_eq_nil_iff]
    intro tm hmem hp
    simp only [Bool.and_eq_true, decide_eq_true_eq, Bool.not_eq_true'] at hp
    obtain ⟨k, hk⟩ := List.mem_iff_getElem?.mp hmem
    rw [hts k tm hk hp.1] at hp
    simp at hp
  cases hlk : alookup st.expirationTimers sid with
  | some oldIdx =>
    obtain ⟨oldTm, holdget, holdsid⟩ := hreg sid oldIdx hlk
    have holdlt : oldIdx < st.timers.length :=
      (List.getElem?_eq_some_iff.mp holdget).1
    rw [schedule_expiration_eq_some st sid t oldIdx hlk]
    unfold active_timers
    simp only
    rw [cancel_timer_append_left _ _ _ holdlt, List.filter_append]
    rw [hfilter_nil (cancel_timer st.timers oldIdx) ?_]
    · simp
    · intro k tm hk hsid
      by_cases hk0 : k = oldIdx
      · rw [hk0, cancel_timer_getElem_q_self _ _ _ holdget] at hk
        obtain rfl := Option.some.inj hk
        rfl
      · rw [cancel_timer_getElem_q_ne _ _ _ hk0] at hk
        by_contra hc
        have hcanc : tm.cancelled = false := by
          cases hcv : tm.cancelled
          · rfl
          · exact absurd hcv hc
        have hres := hact k tm hk hcanc
        rw [hsid] at hres
        exact hk0 (Option.some.inj (hres.symm.trans hlk))
  | none =>
    rw [schedule_expiration_eq_none st sid t hlk]
    unfold active_timers
    simp only
    rw [List.filter_append]
    rw [hfilter_nil st.timers ?_]
    · simp
    · intro k tm hk hsid
      by_contra hc
      have hcanc : tm.cancelled = false := by
        cases hcv : tm.cancelled
        · rfl
        · exact absurd hcv hc
      have hres := hact k tm hk hcanc
      rw [hsid] at hres
      rw [hres] at hlk
      cases hlk

theorem schedule_cancels_old_timer (st : TrackerState) (sid : String) (t : Int)
    (hInv : TrackerInv st) (i : Nat) (tm : ExpirationTimer)
    (hget : st.timers[i]? = some tm) (hsid : tm.sid = sid)
    (hcanc : tm.cancelled = false) :
    (schedule_expiration st sid t).timers[i]? =
      some { tm with cancelled := true } := by
  have hres := hInv.2 i tm hget hcanc
  rw [hsid] at hres
  rw [schedule_expiration_eq_some st sid t i hres]
  exact cancel_timer_getElem_q_self _ _ _
    (by
      rw [List.getElem?_append_left (List.getElem?_eq_some_iff.mp hget).1]
      exact hget)

theorem active_timers_le_one (st : TrackerState) (hInv : TrackerInv st)
    (sid : String) : (active_timers st sid).length ≤ 1 := by
  obtain ⟨hreg, hact⟩ := hInv
  refine length_filter_le_one _ st.timers ?_
  intro i j tm tm2 hi hj hp hp2
  simp only [Bool.and_eq_true, decide_eq_true_eq, Bool.not_eq_true'] at hp hp2
  have h1 := hact i tm hi hp.2
  have h2 := hact j tm2 hj hp2.2
  rw [hp.1] at h1
  rw [hp2.1] at h2
  exact Option.some.inj (h1.symm.trans h2)

/-- C4: for every reachable tracker state, each sandbox id has at most one
armed expiration timer, and every call to `_schedule_expiration(id, t)`
cancels any previously armed timer for that id and installs exactly one new
armed timer with deadline `t`, with the tracked deadline equal to `t`
afterwards (so after a renewal the tracked deadline is the renewed time and
the timer for the old deadline is cancelled). -/
theorem schedule_expiration_single_active_timer (ops : List TrackerOp)
    (sid : String) (t : Int) :
    (∀ sid2, (active_timers (run_tracker_ops ops) sid2).length ≤ 1) ∧
    active_timers (apply_tracker_op (run_tracker_ops ops)
        (TrackerOp.schedule sid t)) sid = [⟨sid, t, false⟩] ∧
    alookup (apply_tracker_op (run_tracker_ops ops)
        (TrackerOp.schedule sid t)).sandboxExpirations sid = some t ∧
    (∀ (i : Nat) (tm : ExpirationTimer),
      (run_tracker_ops ops).timers[i]? = some tm → tm.sid = sid →
      tm.cancelled = false →
      (apply_tracker_op (run_tracker_ops ops)
          (TrackerOp.schedule sid t)).timers[i]? =
        some { tm with cancelled := true }) := by
  have hInv := tracker_inv_run ops
  refine ⟨fun sid2 => active_timers_le_one _ hInv sid2,
    active_timers_schedule_eq _ sid t hInv, ?_, ?_⟩
  · show alookup (schedule_expiration (run_tracker_ops ops) sid
        t).sandboxExpirations sid = some t
    cases hlk : alookup (run_tracker_ops ops).expirationTimers sid with
    | some oldIdx =>
      rw [schedule_expiration_eq_some _ _ _ _ hlk]
      exact alookup_aset_self _ _ _
    | none =>
      rw [schedule_expiration_eq_none _ _ _ hlk]
      exact alookup_aset_self _ _ _
  · intro i tm hget hsid hcanc
    exact schedule_cancels_old_timer _ sid t hInv i tm hget hsid hcanc

/-- C4 witness: after scheduling sandbox "a" at deadline 5 and rescheduling at
deadline 9, only the new timer is armed and the old timer object is
cancelled. -/
theorem schedule_expiration_single_active_timer_witness :
    active_timers (apply_tracker_op (run_tracker_ops [TrackerOp.schedule "a" 5])
        (TrackerOp.schedule "a" 9)) "a" = [⟨"a", 9, false⟩] ∧
    (apply_tracker_op (run_tracker_ops [TrackerOp.schedule "a" 5])
        (TrackerOp.schedule "a" 9)).timers[0]? = some ⟨"a", 5, true⟩ :=
  ⟨(schedule_expiration_single_active_timer [TrackerOp.schedule "a" 5]
      "a" 9).2.1,
    (schedule_expiration_single_active_timer [TrackerOp.schedule "a" 5]
      "a" 9).2.2.2 0 ⟨"a", 5, false⟩ rfl rfl rfl⟩

/-- C8: every volume mount's host path is resolved against the server working
directory before being handed to the daemon (a relative path `p` becomes
`cwd/p`), and if any mount's resolved host path does not exist creation fails
with the 400 `INVALID_VOLUME_MOUNT` error; when every host path exists, each
mount becomes exactly one bind with the resolved path and `ro`/`rw` mode. -/
theorem resolve_volume_mounts_spec (cwd : String)
    (hostExists : String → Bool) (mounts : List VolumeMountSpec) :
    ((∀ m ∈ mounts, hostExists (py_abspath cwd m.hostPath) = true) →
      resolve_volume_mounts cwd hostExists mounts =
        Except.ok (mounts.map fun m =>
          ⟨py_abspath cwd m.hostPath, m.containerPath,
            if m.readOnly then "ro" else "rw"⟩)) ∧
    ((∃ m ∈ mounts, hostExists (py_abspath cwd m.hostPath) = false) →
      resolve_volume_mounts cwd hostExists mounts =
        Except.error ⟨400, "INVALID_VOLUME_MOUNT"⟩) ∧
    (∀ p : String, str_starts_with p "/" = false →
      str_starts_with p "./" = false →
      py_abspath cwd p = cwd ++ "/" ++ p) := by
  refine ⟨?_, ?_, ?_⟩
  · induction mounts with
    | nil => intro _; rfl
    | cons m rest ih =>
      intro hall
      have hm := hall m (by simp)
      have hrest := ih fun m2 hm2 => hall m2 (by simp [hm2])
      simp [resolve_volume_mounts, hm, hrest]
  · induction mounts with
    | nil =>
      rintro ⟨m, hmem, _⟩
      simp at hmem
    | cons m rest ih =>
      rintro ⟨m2, hmem, hfail⟩
      by_cases hm : hostExists (py_abspath cwd m.hostPath) = true
      · have hm2r : m2 ∈ rest := by
          rcases List.mem_cons.mp hmem with rfl | hr
          · rw [hfail] at hm
            cases hm
          · exact hr
        have hrest := ih ⟨m2, hm2r, hfail⟩
        simp [resolve_volume_mounts, hm, hrest]
      · simp only [Bool.not_eq_true] at hm
        simp [resolve_volume_mounts, hm]
  · intro p h1 h2
    simp [py_abspath, h1, h2]

/-- C8 witness: a relative mount `data` under cwd `/srv` resolves to
`/srv/data` and binds read-write when it exists; it fails with 400
`INVALID_VOLUME_MOUNT` when no host path exists. -/
theorem resolve_volume_mounts_spec_witness :
    resolve_volume_mounts "/srv" (fun s => decide (s = "/srv/data"))
        [⟨"data", "/workspace", false⟩] =
      Except.ok [⟨"/srv/data", "/workspace", "rw"⟩] ∧
    resolve_volume_mounts "/srv" (fun _ => false)
        [⟨"data", "/workspace", false⟩] =
      Except.error ⟨400, "INVALID_VOLUME_MOUNT"⟩ := by
  constructor
  · have h := (resolve_volume_mounts_spec "/srv"
      (fun s => decide (s = "/srv/data")) [⟨"data", "/workspace", false⟩]).1
      (by decide)
    rw [h]
    rfl
  · exact (resolve_volume_mounts_spec "/srv" (fun _ => false)
      [⟨"data", "/workspace", false⟩]).2.1
      ⟨⟨"data", "/workspace", false⟩, by decide, rfl⟩

theorem safe_char_not_special (c : Char) (h : shlex_safe_char c = true) :
    c ≠ ' ' ∧ c ≠ '\t' ∧ c ≠ '\n' ∧ c ≠ '\'' ∧ c ≠ '"' ∧ c ≠ '\\' := by
  refine ⟨?_, ?_, ?_, ?_, ?_, ?_⟩ <;> rintro rfl <;> exact absurd h (by decide)

theorem shell_split_aux_safe :
    ∀ s : List Char, (∀ c ∈ s, shlex_safe_char c = true) →
      ∀ (rest cur : List Char) (started : Bool),
        shell_split_aux (s ++ rest) ShellMode.norm cur started =
          shell_split_aux rest ShellMode.norm (cur ++ s)
            (started || !s.isEmpty) := by
  intro s
  induction s with
  | nil =>
    intro _ rest cur started
    simp
  | cons c cs ih =>
    intro hsafe rest cur started
    obtain ⟨h1, h2, h3, h4, h5, h6⟩ :=
      safe_char_not_special c (hsafe c (by simp))
    have hstep : shell_split_aux ((c :: cs) ++ rest) ShellMode.norm cur started
        = shell_split_aux (cs ++ rest) ShellMode.norm (cur ++ [c]) true := by
      simp only [List.cons_append, shell_split_aux, h1, h2, h3, h4, h5, h6,
        or_self, if_false, if_neg]
      rfl
    rw [hstep, ih (fun d hd => hsafe d (by simp [hd])) rest (cur ++ [c]) true]
    simp

theorem shell_split_aux_quote_body :
    ∀ s rest cur : List Char,
      shell_split_aux (shlex_quote_body s ++ rest) ShellMode.single cur true =
        shell_split_aux rest ShellMode.single (cur ++ s) true := by
  intro s
  induction s with
  | nil =>
    intro rest cur
    simp [shlex_quote_body]
  | cons c cs ih =>
    intro rest cur
    by_cases hc : c = '\''
    · subst hc
      have hb : shlex_quote_body ('\'' :: cs) ++ rest =
          '\'' :: '"' :: '\'' :: '"' :: '\'' :: (shlex_quote_body cs ++ rest) := by
        simp [shlex_quote_body]
      have hstep : shell_split_aux
          ('\'' :: '"' :: '\'' :: '"' :: '\'' :: (shlex_quote_body cs ++ rest))
            ShellMode.single cur true =
          shell_split_aux (shlex_quote_body cs ++ rest) ShellMode.single
            (cur ++ ['\'']) true := rfl
      rw [hb, hstep, ih rest (cur ++ ['\''])]
      simp
    · have hb : shlex_quote_body (c :: cs) ++ rest =
          c :: (shlex_quote_body cs ++ rest) := by
        simp [shlex_quote_body, hc]
      have hstep : shell_split_aux (c :: (shlex_quote_body cs ++ rest))
            ShellMode.single cur true =
          shell_split_aux (shlex_quote_body cs ++ rest) ShellMode.single
            (cur ++ [c]) true := by
        simp only [shell_split_aux, if_neg hc]
      rw [hb, hstep, ih rest (cur ++ [c])]
      simp

theorem shell_split_aux_quote (s : List Char) :
    ∀ (rest cur : List Char) (started : Bool),
      shell_split_aux (shlex_quote_chars s ++ rest) ShellMode.norm cur started
        = shell_split_aux rest ShellMode.norm (cur ++ s) true := by
  intro rest cur started
  by_cases hnil : s = []
  · subst hnil
    have h : shell_split_aux (['\'', '\''] ++ rest) ShellMode.norm cur started
        = shell_split_aux rest ShellMode.norm cur true := rfl
    simpa [shlex_quote_chars] using h
  · by_cases hsafe : s.all shlex_safe_char
    · have hq : shlex_quote_chars s = s := by
        simp [shlex_quote_chars, hnil, hsafe]
      have hemp : s.isEmpty = false := by
        simpa [List.isEmpty_iff] using hnil
      rw [hq,
        shell_split_aux_safe s (by simpa [List.all_eq_true] using hsafe)
          rest cur started,
        hemp]
      simp
    · have hq : shlex_quote_chars s ++ rest =
          '\'' :: (shlex_quote_body s ++ ('\'' :: rest)) := by
        simp [shlex_quote_chars, hnil, hsafe]
    
      have h1 : shell_split_aux
            ('\'' :: (shlex_quote_body s ++ ('\'' :: rest)))
            ShellMode.norm cur started =
          shell_split_aux (shlex_quote_body s ++ ('\'' :: rest))
            ShellMode.single cur true := rfl
      have h2 : shell_split_aux ('\'' :: rest) ShellMode.single (cur ++ s) true
          = shell_split_aux rest ShellMode.norm (cur ++ s) true := rfl
      rw [hq, h1, shell_split_aux_quote_body s ('\'' :: rest) cur, h2]

theorem shell_split_aux_join :
    ∀ args : List (List Char),
      shell_split_aux (shlex_join_list args) ShellMode.norm [] false = args := by
  intro args
  induction args with
  | nil => rfl
  | cons a rest ih =>
    cases rest with
    | nil =>
      have h := shell_split_aux_quote a [] [] false
      simpa [shlex_join_list, shell_split_aux] using h
    | cons b rest2 =>
      have hj : shlex_join_list (a :: b :: rest2) =
          shlex_quote_chars a ++ ' ' :: shlex_join_list (b :: rest2) := rfl
      rw [hj, shell_split_aux_quote a (' ' :: shlex_join_list (b :: rest2)) []
        false]
      have hstep : shell_split_aux (' ' :: shlex_join_list (b :: rest2))
            ShellMode.norm ([] ++ a) true =
          ([] ++ a) :: shell_split_aux (shlex_join_list (b :: rest2))
            ShellMode.norm [] false := rfl
      rw [hstep, ih]
      simp

/-- C1: for every entrypoint argument list, the pool-mode task template's
`spec.process.command` is exactly `/bin/sh -c` applied to
`"/opt/opensandbox/bin/bootstrap.sh " ++ space-joined shell-quoted arguments
++ " &"`, the env is carried verbatim, and POSIX shell field splitting of the
quoted argument text recovers exactly the original argv — so arguments with
spaces, quotes, or metacharacters cannot change the command structure. -/
theorem build_task_template_injection_safe (entrypoint : List String)
    (env : List (String × String)) :
    (build_task_template entrypoint env).command =
      ["/bin/sh", "-c",
        "/opt/opensandbox/bin/bootstrap.sh " ++ shlex_join entrypoint ++ " &"] ∧
    (build_task_template entrypoint env).env = env ∧
    shell_split (shlex_join entrypoint) = entrypoint := by
  refine ⟨rfl, rfl, ?_⟩
  show (shell_split_aux (shlex_join_list (entrypoint.map String.data))
      ShellMode.norm [] false).map String.mk = entrypoint
  rw [shell_split_aux_join (entrypoint.map String.data)]
  induction entrypoint with
  | nil => rfl
  | cons a rest ih => simp [ih]

end OpenSandbox
